import Mathlib

/-!
Shallow embedding of `src/api/youtube_shorts_api.py` (the `YouTubeShortsProcessor`
class and the `/api/upload` route).

Conventions of the embedding:
* Python floats are modelled as exact rationals (`ℚ`); every float value that the
  claims depend on (`9/16`, `0.1`, `0.7`, `height * 9/16 = 607.5`, ...) is exactly
  representable in binary floating point, so the rational model agrees with the
  float computation on those values.
* Python `int(x)` (truncation toward zero) is modelled by `pyInt`.
* A stage call is modelled as a total function from an abstract scenario - which
  records where, if anywhere, the underlying library raised - to the list of
  `(percent, message)` progress events handed to `progress_callback`, together
  with the returned value.  The Python `except Exception` handlers are part of
  these functions, so "the call returns instead of raising" is structural.
-/

/-- Progress event: the `(percent, message)` pair passed to `progress_callback`. -/
abbrev Event := ℚ × String

/-- Python `int()` applied to a float: truncation toward zero. -/
def pyInt (q : ℚ) : ℤ := if 0 ≤ q then ⌊q⌋ else -⌊-q⌋

/-! ### download_video (lines 46-92) -/

/-- Destination name for a non-YouTube URL (line 79):
`os.path.join('uploads', "video_" + str(int(time.time())) + ".mp4")`,
where `t` is the wall-clock time in seconds as returned by `time.time()`. -/
def genericVideoName (t : ℚ) : String :=
  "uploads/video_" ++ toString (pyInt t) ++ ".mp4"

/-- Abstract scenario for one `download_video` call: which URL branch is taken
and where, if anywhere, the underlying libraries raise. -/
inductive DownloadScenario where
  /-- YouTube URL; `YouTube(url)` or stream resolution raises with message `msg`. -/
  | ytConstructError (msg : String)
  /-- YouTube URL; the progressive-mp4 stream filter returns nothing (lines 59-61). -/
  | ytNoStream
  /-- YouTube URL; a stream is found but `stream.download` raises with message `msg`. -/
  | ytDownloadError (msg : String)
  /-- YouTube URL; the download succeeds and returns `path`. -/
  | ytSuccess (path : String)
  /-- generic URL at wall-clock time `t`; `urlretrieve` raises with message `msg`. -/
  | genericError (t : ℚ) (msg : String)
  /-- generic URL at wall-clock time `t`; `urlretrieve` succeeds. -/
  | genericSuccess (t : ℚ)
deriving DecidableEq

/-- The `download_video` method: progress events emitted and the returned value
(`some path` on success, `none` on the no-stream early return and in the
`except` handler). -/
def download_video : DownloadScenario → List Event × Option String
  | .ytConstructError msg =>
      ([(10, "Starting download..."), (0, "Error: " ++ msg)], none)
  | .ytNoStream =>
      ([(10, "Starting download...")], none)
  | .ytDownloadError msg =>
      ([(10, "Starting download..."), (30, "Downloading video..."),
        (0, "Error: " ++ msg)], none)
  | .ytSuccess path =>
      ([(10, "Starting download..."), (30, "Downloading video..."),
        (100, "Download complete!")], some path)
  | .genericError _ msg =>
      ([(10, "Starting download..."), (50, "Downloading from URL..."),
        (0, "Error: " ++ msg)], none)
  | .genericSuccess t =>
      ([(10, "Starting download..."), (50, "Downloading from URL..."),
        (100, "Download complete!")], some (genericVideoName t))

/-! ### convert_to_shorts_format (lines 94-169) -/

/-- The crop rectangle handed to `clip.crop(x1=..., y1=..., x2=..., y2=...)`. -/
structure CropRect where
  x1 : ℚ
  y1 : ℚ
  x2 : ℚ
  y2 : ℚ
deriving DecidableEq

/-- `target_aspect_ratio = 9/16` (line 120). -/
def target_aspect_ratio : ℚ := 9 / 16

/-- The aspect-ratio adjustment of lines 119-139: `none` when
`abs(current - target) <= 0.1` (no crop), otherwise the crop rectangle
computed by the too-wide or too-tall branch, with `new_width`/`new_height`
obtained through Python `int()`. -/
def cropRegion (width height : ℤ) : Option CropRect :=
  let current : ℚ := (width : ℚ) / (height : ℚ)
  if |current - target_aspect_ratio| > 1/10 then
    if current > target_aspect_ratio then
      let newWidth : ℤ := pyInt ((height : ℚ) * target_aspect_ratio)
      let xCenter : ℚ := (width : ℚ) / 2
      some ⟨xCenter - (newWidth : ℚ) / 2, 0, xCenter + (newWidth : ℚ) / 2, (height : ℚ)⟩
    else
      let newHeight : ℤ := pyInt ((width : ℚ) / target_aspect_ratio)
      let yCenter : ℚ := (height : ℚ) / 2
      some ⟨0, yCenter - (newHeight : ℚ) / 2, (width : ℚ), yCenter + (newHeight : ℚ) / 2⟩
  else none

/-- Lines 109-111: `if clip.duration > 60: clip = clip.subclip(0, 60)`. -/
def outputDuration (d : ℚ) : ℚ := if 60 < d then 60 else d

/-- Abstract scenario for one `convert_to_shorts_format` call. -/
inductive ConvertScenario where
  /-- `VideoFileClip(video_path)` raises with message `msg`; no clip was loaded. -/
  | loadError (msg : String)
  /-- clip of size `width` x `height`, duration `duration`, loads fine but
  `write_videofile` raises with message `msg`. -/
  | writeError (width height : ℤ) (duration : ℚ) (msg : String)
  /-- clip of size `width` x `height`, duration `duration`, basename `srcName`;
  the whole conversion succeeds. -/
  | success (width height : ℤ) (duration : ℚ) (srcName : String)
deriving DecidableEq

/-- Observable outcome of one `convert_to_shorts_format` call: progress events,
returned value, the crop rectangle passed to the encoder (if any), the duration
of the written clip, and whether the loaded clip was `close()`d. -/
structure ConvertOutcome where
  events : List Event
  result : Option String
  crop : Option CropRect
  outDuration : Option ℚ
  clipLoaded : Bool
  clipClosed : Bool

/-- The `convert_to_shorts_format` method.  `clip.close()` (line 157) sits on
the success path only; the `except` handler (lines 165-169) emits the error
event and returns `None` without closing the clip. -/
def convert_to_shorts_format : ConvertScenario → ConvertOutcome
  | .loadError msg =>
      ⟨[(10, "Loading video..."), (0, "Error: " ++ msg)],
       none, none, none, false, false⟩
  | .writeError w h d msg =>
      ⟨[(10, "Loading video..."), (30, "Checking duration..."),
        (50, "Checking aspect ratio..."), (70, "Rendering video..."),
        (0, "Error: " ++ msg)],
       none, cropRegion w h, some (outputDuration d), true, false⟩
  | .success w h d src =>
      ⟨[(10, "Loading video..."), (30, "Checking duration..."),
        (50, "Checking aspect ratio..."), (70, "Rendering video..."),
        (100, "Conversion complete!")],
       some ("processed/shorts_" ++ src), cropRegion w h, some (outputDuration d),
       true, true⟩

/-! ### authenticate_youtube (lines 171-211) -/

/-- Google OAuth credentials as far as the control flow of
`authenticate_youtube` inspects them (`creds.valid`, `creds.expired`,
`creds.refresh_token`); `tag` distinguishes distinct credential objects. -/
structure Creds where
  valid : Bool
  expired : Bool
  hasRefreshToken : Bool
  tag : ℕ
deriving DecidableEq

/-- Observable outcome of one `authenticate_youtube` call: the returned
`(success, message)` pair, whether the interactive consent flow
(`flow.run_local_server`) ran, the service built from the final credentials,
and the content of `token.pickle` afterwards. -/
structure AuthResult where
  ok : Bool
  message : String
  interactiveUsed : Bool
  service : Option Creds
  newToken : Option Creds
deriving DecidableEq

/-- The `authenticate_youtube` method.  `parseOk`/`parseErr` model whether
`json.loads(credentials_json)` succeeds; `stored` is the credential object in
`token.pickle` (or `none` when the file is absent); `refreshResult` is the
credential object after `creds.refresh(Request())`; `flowResult` is the one
produced by the interactive flow. -/
def authenticate_youtube (parseOk : Bool) (parseErr : String)
    (refreshResult flowResult : Creds) (stored : Option Creds) : AuthResult :=
  if parseOk = false then
    ⟨false, "Authentication failed: " ++ parseErr, false, none, stored⟩
  else
    match stored with
    | some c =>
        if c.valid then
          ⟨true, "Authentication successful", false, some c, some c⟩
        else if c.expired && c.hasRefreshToken then
          ⟨true, "Authentication successful", false, some refreshResult, some refreshResult⟩
        else
          ⟨true, "Authentication successful", true, some flowResult, some flowResult⟩
    | none =>
        ⟨true, "Authentication successful", true, some flowResult, some flowResult⟩

/-! ### upload_video (lines 213-269) -/

/-- Message of the `AttributeError` raised at line 244 when
`self.youtube_service` is still `None`. -/
def noServiceError : String := "NoneType object has no attribute videos"

/-- The fixed event emitted at the top of every chunk round-trip (line 253). -/
def heartbeat : Event := (30, "Uploading...")

/-- Line 257 and 259: `progress = int(status.progress() * 100)` followed by
`progress_callback(30 + progress * 0.7, ...)`. -/
def chunkPercent (p : ℚ) : ℚ := 30 + (pyInt (p * 100) : ℚ) * (7/10)

/-- Message accompanying a mapped chunk event (line 259). -/
def chunkMsg (p : ℚ) : String :=
  "Uploading... " ++ toString (pyInt (p * 100)) ++ "%"

/-- Events emitted by one iteration of the `while response is None` loop
(lines 251-259): the heartbeat, then - when `next_chunk` returned a status -
the mapped chunk event. -/
def chunkEvents : Option ℚ → List Event
  | some p => [heartbeat, (chunkPercent p, chunkMsg p)]
  | none => [heartbeat]

/-- Behaviour of the resumable-upload transport during one `upload_video`
call: either every `next_chunk` call succeeds (each returning the recorded
optional `status.progress()` value, the last one also returning the terminal
response), or `next_chunk` raises after the recorded prefix of calls. -/
inductive UploadTransport where
  /-- calls return the statuses in `chunks` in order; the last call also
  returns the terminal response, ending the loop. -/
  | success (chunks : List (Option ℚ))
  /-- calls return the statuses in `pre` in order, then the next call raises
  with message `msg`. -/
  | chunkError (pre : List (Option ℚ)) (msg : String)
deriving DecidableEq

/-- Observable outcome of one `upload_video` call: progress events and the
returned `(success, response-or-error)` pair. -/
structure UploadOutcome where
  events : List Event
  ok : Bool
  message : String
deriving DecidableEq

/-- The `upload_video` method.  `service` is `self.youtube_service`
(`none` until a successful `authenticate_youtube`); with no service the
`AttributeError` of line 244 lands in the `except` handler (lines 266-269). -/
def upload_video (service : Option Creds) (tr : UploadTransport) : UploadOutcome :=
  match service with
  | none =>
      ⟨[(10, "Starting upload..."), (20, "Initiating upload..."),
        (0, "Error: " ++ noServiceError)],
       false, "Upload failed: " ++ noServiceError⟩
  | some _ =>
      match tr with
      | .success chunks =>
          ⟨[(10, "Starting upload..."), (20, "Initiating upload...")]
             ++ chunks.flatMap chunkEvents ++ [(100, "Upload complete!")],
           true, "upload response"⟩
      | .chunkError pre msg =>
          ⟨[(10, "Starting upload..."), (20, "Initiating upload...")]
             ++ pre.flatMap chunkEvents ++ [heartbeat, (0, "Error: " ++ msg)],
           false, "Upload failed: " ++ msg⟩

/-! ### the /api/upload route (lines 350-381) -/

/-- Observable outcome of one POST to `/api/upload`: whether the request was
accepted, the synchronous error (HTTP 400 body) if not, whether a background
upload task was dispatched, and how many network calls are made on behalf of
this request (the dispatched task's calls; zero when nothing is dispatched). -/
structure RouteUploadOutcome where
  ok : Bool
  error : Option String
  dispatched : Bool
  networkCalls : ℕ
deriving DecidableEq

/-- The `/api/upload` route handler: line 360,
`if not video_path or not os.path.exists(video_path) or not title`, rejects
with 400 "Invalid parameters" before dispatching the background upload thread.
`taskNetworkCalls` is the number of network calls the background task would
make if dispatched. -/
def api_upload_video (videoPath : String) (pathExists : Bool) (title : String)
    (taskNetworkCalls : ℕ) : RouteUploadOutcome :=
  if videoPath = "" ∨ pathExists = false ∨ title = "" then
    ⟨false, some "Invalid parameters", false, 0⟩
  else
    ⟨true, none, true, taskNetworkCalls⟩

/-! ### stage invocations, progress invariants -/

/-- One stage invocation of the pipeline (the three progress-reporting
processor methods). -/
inductive StageRun where
  | download (s : DownloadScenario)
  | convert (s : ConvertScenario)
  | upload (service : Option Creds) (tr : UploadTransport)
deriving DecidableEq

/-- Progress events emitted during the stage invocation. -/
def stageEvents : StageRun → List Event
  | .download s => (download_video s).1
  | .convert s => (convert_to_shorts_format s).events
  | .upload sv tr => (upload_video sv tr).events

/-- Whether the stage invocation returned its success result. -/
def stageSucceeds : StageRun → Bool
  | .download s => (download_video s).2.isSome
  | .convert s => (convert_to_shorts_format s).result.isSome
  | .upload sv tr => (upload_video sv tr).ok

/-- A reported chunk status is a fraction in `[0, 1]`. -/
def chunkInRange : Option ℚ → Bool
  | some p => decide (0 ≤ p) && decide (p ≤ 1)
  | none => true

/-- All chunk statuses seen by an upload invocation lie in `[0, 1]`
(vacuously true for the other stages). -/
def stageChunksInRange : StageRun → Bool
  | .upload _ (.success cs) => cs.all chunkInRange
  | .upload _ (.chunkError pre _) => pre.all chunkInRange
  | _ => true

/-- One admissible step of the spec's progress invariant: the percent does not
decrease, or it resets to 0 together with a non-empty message. -/
def stepOk (e1 e2 : Event) : Prop :=
  e1.1 ≤ e2.1 ∨ (e2.1 = 0 ∧ e2.2 ≠ "")

/-- The `stepOk` invariant weakened by the one extra decrease the code actually
performs: the fixed `(30, "Uploading...")` heartbeat re-emitted at the top of
every chunk round-trip. -/
def stepOkA (e1 e2 : Event) : Prop := stepOk e1 e2 ∨ e2 = heartbeat

/-- The spec's progress invariant over a whole event sequence. -/
def progressMonotone (l : List Event) : Prop := List.Chain' stepOk l

/-- The weakened progress invariant over a whole event sequence. -/
def progressMonotoneA (l : List Event) : Prop := List.Chain' stepOkA l

instance : DecidableRel stepOk := fun e1 e2 => by
  unfold stepOk; exact inferInstance

instance : DecidableRel stepOkA := fun e1 e2 => by
  unfold stepOkA; exact inferInstance

/-- Whether an event's percent is 0. -/
def isZeroPercent (e : Event) : Bool := decide (e.1 = 0)

/-- The event list ends in a percent-0 event carrying a non-empty message, and
that is its only percent-0 event. -/
def terminalZeroError (l : List Event) : Bool :=
  (match l.getLast? with
   | some e => isZeroPercent e && !(e.2 == "")
   | none => false) && ((l.filter isZeroPercent).length == 1)

/-- A concrete valid credential object, used to instantiate closed statements. -/
def demoCreds : Creds := ⟨true, false, true, 0⟩

/-! ### helper lemmas -/

lemma append_ne_empty (pre m : String) (hp : pre.length ≠ 0) : pre ++ m ≠ "" := by
  intro h
  have hl := congrArg String.length h
  rw [String.length_append] at hl
  have h0 : ("" : String).length = 0 := rfl
  rw [h0] at hl
  omega

lemma err_ne (m : String) : "Error: " ++ m ≠ "" :=
  append_ne_empty _ _ (by decide)

lemma pyInt_eq_floor (q : ℚ) (h : 0 ≤ q) : pyInt q = ⌊q⌋ := if_pos h

lemma pyInt_eq_of (q : ℚ) (z : ℤ) (h0 : 0 ≤ q) (h1 : (z:ℚ) ≤ q) (h2 : q < z + 1) :
    pyInt q = z := by
  rw [pyInt_eq_floor q h0, Int.floor_eq_iff]
  exact ⟨h1, h2⟩

lemma pyInt_nonneg (q : ℚ) (h : 0 ≤ q) : 0 ≤ pyInt q := by
  rw [pyInt_eq_floor q h]
  exact Int.floor_nonneg.mpr h

lemma pyInt_le_self (q : ℚ) (h : 0 ≤ q) : (pyInt q : ℚ) ≤ q := by
  rw [pyInt_eq_floor q h]
  exact Int.floor_le q

lemma pyInt_intCast (z : ℤ) : pyInt (z : ℚ) = z := by
  rcases le_or_lt 0 z with hz | hz
  · rw [pyInt, if_pos (by exact_mod_cast hz), Int.floor_intCast]
  · have hz' : ¬ (0 : ℚ) ≤ (z : ℚ) := by exact_mod_cast not_le.mpr hz
    rw [pyInt, if_neg hz', ← Int.cast_neg, Int.floor_intCast, neg_neg]

lemma chunkPercent_ge_30 (p : ℚ) (h : 0 ≤ p) : 30 ≤ chunkPercent p := by
  have hk : (0:ℤ) ≤ pyInt (p * 100) := pyInt_nonneg _ (by positivity)
  have hk' : (0:ℚ) ≤ (pyInt (p * 100) : ℚ) := by exact_mod_cast hk
  have hm : (0:ℚ) ≤ (pyInt (p * 100) : ℚ) * (7/10) := by positivity
  unfold chunkPercent
  linarith

lemma chunkPercent_le_100 (p : ℚ) (h0 : 0 ≤ p) (h1 : p ≤ 1) : chunkPercent p ≤ 100 := by
  have hk : (pyInt (p * 100) : ℚ) ≤ p * 100 := pyInt_le_self _ (by positivity)
  have hk100 : (pyInt (p * 100) : ℚ) ≤ 100 := by linarith
  have hm := mul_le_mul_of_nonneg_right hk100 (by norm_num : (0:ℚ) ≤ 7/10)
  unfold chunkPercent
  linarith

lemma chunkPercent_ne_zero (p : ℚ) : chunkPercent p ≠ 0 := by
  intro h
  unfold chunkPercent at h
  have h7 : ((7 * pyInt (p * 100) : ℤ) : ℚ) = ((-300 : ℤ) : ℚ) := by
    push_cast
    linarith
  have h8 : (7 * pyInt (p * 100) : ℤ) = -300 := by exact_mod_cast h7
  omega

lemma chain_chunks (tail : List Event)
    (htail : ∀ e : Event, e.1 ≤ 100 → List.Chain' stepOkA (e :: tail)) :
    ∀ cs : List (Option ℚ), cs.all chunkInRange = true →
      ∀ prev : Event, prev.1 ≤ 100 →
        List.Chain' stepOkA (prev :: (cs.flatMap chunkEvents ++ tail)) := by
  intro cs
  induction cs with
  | nil =>
      intro _ prev hp
      simpa using htail prev hp
  | cons c cs ih =>
      intro hall prev hp
      rw [List.all_cons, Bool.and_eq_true] at hall
      cases c with
      | none =>
          have hsh : ((none :: cs).flatMap chunkEvents ++ tail) =
              heartbeat :: (cs.flatMap chunkEvents ++ tail) := by
            simp [chunkEvents]
          rw [hsh]
          exact List.chain'_cons.mpr
            ⟨Or.inr rfl, ih hall.2 heartbeat (by norm_num [heartbeat])⟩
      | some p =>
          have hp01 : 0 ≤ p ∧ p ≤ 1 := by
            have hc := hall.1
            simpa [chunkInRange] using hc
          have hsh : ((some p :: cs).flatMap chunkEvents ++ tail) =
              heartbeat :: (chunkPercent p, chunkMsg p) :: (cs.flatMap chunkEvents ++ tail) := by
            simp [chunkEvents]
          rw [hsh]
          refine List.chain'_cons.mpr ⟨Or.inr rfl, ?_⟩
          refine List.chain'_cons.mpr ⟨Or.inl (Or.inl ?_), ?_⟩
          · simpa [heartbeat] using chunkPercent_ge_30 p hp01.1
          · exact ih hall.2 (chunkPercent p, chunkMsg p) (chunkPercent_le_100 p hp01.1 hp01.2)

lemma isZeroPercent_heartbeat : isZeroPercent heartbeat = false := by
  simp [isZeroPercent, heartbeat]

lemma isZeroPercent_of_ne (q : ℚ) (s : String) (h : q ≠ 0) :
    isZeroPercent (q, s) = false := by
  simp [isZeroPercent, h]

lemma filter_chunk_zero (cs : List (Option ℚ)) :
    (cs.flatMap chunkEvents).filter isZeroPercent = [] := by
  induction cs with
  | nil => rfl
  | cons c cs ih =>
      cases c with
      | none =>
          simp [chunkEvents, List.filter_append, ih, isZeroPercent_heartbeat]
      | some p =>
          simp [chunkEvents, List.filter_append, ih, isZeroPercent_heartbeat,
            isZeroPercent_of_ne _ _ (chunkPercent_ne_zero p)]

lemma terminalZeroError_of (l : List Event) (m : String)
    (hm : m ≠ "") (hfilter : l.filter isZeroPercent = []) :
    terminalZeroError (l ++ [(0, m)]) = true := by
  unfold terminalZeroError
  rw [List.getLast?_concat]
  simp [isZeroPercent, List.filter_append, hfilter, hm]

/-! ### claim theorems -/

/-- C3 (amended): within one stage invocation the emitted percent sequence
never decreases, with two exceptions: a reset to 0 carrying a non-empty error
message on failure, and - in `upload_video` only - the fixed
`(30, "Uploading...")` event re-emitted at the top of every chunk round-trip
(line 253), provided every reported chunk fraction lies in `[0, 1]`.
`download_video` and `convert_to_shorts_format` need no heartbeat exception. -/
theorem stage_progress_weakened (r : StageRun) (hcr : stageChunksInRange r = true) :
    progressMonotoneA (stageEvents r) := by
  cases r with
  | download s =>
      cases s with
      | ytConstructError msg =>
          exact List.chain'_cons.mpr
            ⟨Or.inl (Or.inr ⟨rfl, err_ne msg⟩), List.chain'_singleton _⟩
      | ytNoStream =>
          exact List.chain'_singleton _
      | ytDownloadError msg =>
          refine List.chain'_cons.mpr ⟨Or.inl (Or.inl (by norm_num)), ?_⟩
          exact List.chain'_cons.mpr
            ⟨Or.inl (Or.inr ⟨rfl, err_ne msg⟩), List.chain'_singleton _⟩
      | ytSuccess path =>
          refine List.chain'_cons.mpr ⟨Or.inl (Or.inl (by norm_num)), ?_⟩
          exact List.chain'_cons.mpr
            ⟨Or.inl (Or.inl (by norm_num)), List.chain'_singleton _⟩
      | genericError t msg =>
          refine List.chain'_cons.mpr ⟨Or.inl (Or.inl (by norm_num)), ?_⟩
          exact List.chain'_cons.mpr
            ⟨Or.inl (Or.inr ⟨rfl, err_ne msg⟩), List.chain'_singleton _⟩
      | genericSuccess t =>
          refine List.chain'_cons.mpr ⟨Or.inl (Or.inl (by norm_num)), ?_⟩
          exact List.chain'_cons.mpr
            ⟨Or.inl (Or.inl (by norm_num)), List.chain'_singleton _⟩
  | convert s =>
      cases s with
      | loadError msg =>
          exact List.chain'_cons.mpr
            ⟨Or.inl (Or.inr ⟨rfl, err_ne msg⟩), List.chain'_singleton _⟩
      | writeError w h d msg =>
          refine List.chain'_cons.mpr ⟨Or.inl (Or.inl (by norm_num)), ?_⟩
          refine List.chain'_cons.mpr ⟨Or.inl (Or.inl (by norm_num)), ?_⟩
          refine List.chain'_cons.mpr ⟨Or.inl (Or.inl (by norm_num)), ?_⟩
          exact List.chain'_cons.mpr
            ⟨Or.inl (Or.inr ⟨rfl, err_ne msg⟩), List.chain'_singleton _⟩
      | success w h d src =>
          refine List.chain'_cons.mpr ⟨Or.inl (Or.inl (by norm_num)), ?_⟩
          refine List.chain'_cons.mpr ⟨Or.inl (Or.inl (by norm_num)), ?_⟩
          refine List.chain'_cons.mpr ⟨Or.inl (Or.inl (by norm_num)), ?_⟩
          exact List.chain'_cons.mpr
            ⟨Or.inl (Or.inl (by norm_num)), List.chain'_singleton _⟩
  | upload sv tr =>
      cases sv with
      | none =>
          refine List.chain'_cons.mpr ⟨Or.inl (Or.inl (by norm_num)), ?_⟩
          exact List.chain'_cons.mpr
            ⟨Or.inl (Or.inr ⟨rfl, err_ne noServiceError⟩), List.chain'_singleton _⟩
      | some c =>
          cases tr with
          | success chunks =>
              have hcs : chunks.all chunkInRange = true := by
                simpa [stageChunksInRange] using hcr
              have htail : ∀ e : Event, e.1 ≤ 100 →
                  List.Chain' stepOkA (e :: [((100:ℚ), "Upload complete!")]) := by
                intro e he
                exact List.chain'_cons.mpr ⟨Or.inl (Or.inl he), List.chain'_singleton _⟩
              refine List.chain'_cons.mpr ⟨Or.inl (Or.inl (by norm_num)), ?_⟩
              exact chain_chunks _ htail chunks hcs (20, "Initiating upload...") (by norm_num)
          | chunkError pre msg =>
              have hcs : pre.all chunkInRange = true := by
                simpa [stageChunksInRange] using hcr
              have htail : ∀ e : Event, e.1 ≤ 100 →
                  List.Chain' stepOkA (e :: [heartbeat, ((0:ℚ), "Error: " ++ msg)]) := by
                intro e he
                refine List.chain'_cons.mpr ⟨Or.inr rfl, ?_⟩
                exact List.chain'_cons.mpr
                  ⟨Or.inl (Or.inr ⟨rfl, err_ne msg⟩), List.chain'_singleton _⟩
              refine List.chain'_cons.mpr ⟨Or.inl (Or.inl (by norm_num)), ?_⟩
              exact chain_chunks _ htail pre hcs (20, "Initiating upload...") (by norm_num)

/-- C3 witness: a concrete successful upload invocation with one chunk at
fraction 1/2 satisfies the weakened progress invariant. -/
theorem stage_progress_weakened_witness :
    stageChunksInRange (.upload (some demoCreds) (.success [some (1/2)])) = true ∧
    progressMonotoneA (stageEvents (.upload (some demoCreds) (.success [some (1/2)]))) := by
  have h : stageChunksInRange (.upload (some demoCreds) (.success [some (1/2)])) = true := by
    norm_num [stageChunksInRange, chunkInRange, List.all]
  exact ⟨h, stage_progress_weakened _ h⟩

/-- C3 counterexample: a successful `upload_video` invocation whose transport
reports fractions 1/4 then 1 emits percent 47.5 and then drops back to the
fixed 30 heartbeat with no error, so the claimed invariant (non-decreasing
until 100 on success, the only decrease a reset to 0 with an error message)
is false as stated. -/
theorem upload_progress_decreases :
    stageSucceeds (.upload (some demoCreds) (.success [some (1/4), some 1])) = true ∧
    ¬ progressMonotone (stageEvents (.upload (some demoCreds) (.success [some (1/4), some 1]))) := by
  constructor
  · rfl
  · intro hch
    have hcp : chunkPercent (1/4 : ℚ) = 95/2 := by
      have h25 : pyInt ((1/4 : ℚ) * 100) = 25 := by
        rw [show ((1/4 : ℚ) * 100) = ((25:ℤ) : ℚ) by norm_num, pyInt_intCast]
      rw [chunkPercent, h25]
      norm_num
    obtain ⟨-, hch⟩ := List.chain'_cons.mp hch
    obtain ⟨-, hch⟩ := List.chain'_cons.mp hch
    obtain ⟨-, hch⟩ := List.chain'_cons.mp hch
    obtain ⟨hbad, -⟩ := List.chain'_cons.mp hch
    rcases hbad with hle | ⟨h0, -⟩
    · rw [show ((chunkPercent (1/4), chunkMsg (1/4)) : Event).1 = chunkPercent (1/4) from rfl,
        hcp] at hle
      norm_num [heartbeat] at hle
    · norm_num [heartbeat] at h0

lemma filter_zero_nil_of (l : List Event) (hl : ∀ e ∈ l, e.1 ≠ 0) :
    l.filter isZeroPercent = [] := by
  rw [List.filter_eq_nil_iff]
  intro e he
  simp [isZeroPercent, hl e he]

/-- C6 (amended): every failing stage invocation is caught at the stage
boundary and, except for `download_video`'s no-suitable-stream early return
(lines 59-61, which returns `None` with no progress event at all), emits
exactly one terminal percent-0 event carrying a non-empty error message.
That the stage returns instead of raising is structural: the stage functions
are total and `stageSucceeds r = false` is exactly "an error result was
returned". -/
theorem failing_stage_emits_zero_error (r : StageRun)
    (hf : stageSucceeds r = false) (hns : r ≠ .download .ytNoStream) :
    terminalZeroError (stageEvents r) = true := by
  cases r with
  | download s =>
      cases s with
      | ytConstructError msg =>
          rw [show stageEvents (.download (.ytConstructError msg)) =
            [((10:ℚ), "Starting download...")] ++ [((0:ℚ), "Error: " ++ msg)] from rfl]
          refine terminalZeroError_of _ _ (err_ne msg) (filter_zero_nil_of _ ?_)
          intro e he
          simp at he
          rw [he]
          norm_num
      | ytNoStream => exact absurd rfl hns
      | ytDownloadError msg =>
          rw [show stageEvents (.download (.ytDownloadError msg)) =
            [((10:ℚ), "Starting download..."), ((30:ℚ), "Downloading video...")] ++
              [((0:ℚ), "Error: " ++ msg)] from rfl]
          refine terminalZeroError_of _ _ (err_ne msg) (filter_zero_nil_of _ ?_)
          intro e he
          simp at he
          rcases he with rfl | rfl <;> norm_num
      | ytSuccess path => simp [stageSucceeds, download_video] at hf
      | genericError t msg =>
          rw [show stageEvents (.download (.genericError t msg)) =
            [((10:ℚ), "Starting download..."), ((50:ℚ), "Downloading from URL...")] ++
              [((0:ℚ), "Error: " ++ msg)] from rfl]
          refine terminalZeroError_of _ _ (err_ne msg) (filter_zero_nil_of _ ?_)
          intro e he
          simp at he
          rcases he with rfl | rfl <;> norm_num
      | genericSuccess t => simp [stageSucceeds, download_video] at hf
  | convert s =>
      cases s with
      | loadError msg =>
          rw [show stageEvents (.convert (.loadError msg)) =
            [((10:ℚ), "Loading video...")] ++ [((0:ℚ), "Error: " ++ msg)] from rfl]
          refine terminalZeroError_of _ _ (err_ne msg) (filter_zero_nil_of _ ?_)
          intro e he
          simp at he
          rw [he]
          norm_num
      | writeError w h d msg =>
          rw [show stageEvents (.convert (.writeError w h d msg)) =
            [((10:ℚ), "Loading video..."), ((30:ℚ), "Checking duration..."),
             ((50:ℚ), "Checking aspect ratio..."), ((70:ℚ), "Rendering video...")] ++
              [((0:ℚ), "Error: " ++ msg)] from rfl]
          refine terminalZeroError_of _ _ (err_ne msg) (filter_zero_nil_of _ ?_)
          intro e he
          simp at he
          rcases he with rfl | rfl | rfl | rfl <;> norm_num
      | success w h d src => simp [stageSucceeds, convert_to_shorts_format] at hf
  | upload sv tr =>
      cases sv with
      | none =>
          rw [show stageEvents (.upload none tr) =
            [((10:ℚ), "Starting upload..."), ((20:ℚ), "Initiating upload...")] ++
              [((0:ℚ), "Error: " ++ noServiceError)] from rfl]
          refine terminalZeroError_of _ _ (err_ne noServiceError) (filter_zero_nil_of _ ?_)
          intro e he
          simp at he
          rcases he with rfl | rfl <;> norm_num
      | some c =>
          cases tr with
          | success chunks => simp [stageSucceeds, upload_video] at hf
          | chunkError pre msg =>
              have hsh : stageEvents (.upload (some c) (.chunkError pre msg)) =
                  (([((10:ℚ), "Starting upload..."), ((20:ℚ), "Initiating upload...")] ++
                    pre.flatMap chunkEvents ++ [heartbeat]) ++ [((0:ℚ), "Error: " ++ msg)]) := by
                simp [stageEvents, upload_video]
              rw [hsh]
              refine terminalZeroError_of _ _ (err_ne msg) ?_
              rw [List.filter_append, List.filter_append, filter_chunk_zero]
              rw [filter_zero_nil_of [((10:ℚ), "Starting upload..."), ((20:ℚ), "Initiating upload...")]
                (by intro e he; simp at he; rcases he with rfl | rfl <;> norm_num)]
              rw [filter_zero_nil_of [heartbeat]
                (by intro e he; simp at he; rw [he]; norm_num [heartbeat])]
              rfl

/-- C6 witness: a concrete failing download (the YouTube constructor raising)
satisfies both hypotheses and emits the single terminal 0-percent error event. -/
theorem failing_stage_emits_zero_error_witness :
    stageSucceeds (.download (.ytConstructError "network unreachable")) = false ∧
    (StageRun.download (.ytConstructError "network unreachable") ≠ .download .ytNoStream) ∧
    terminalZeroError (stageEvents (.download (.ytConstructError "network unreachable"))) = true := by
  have h1 : stageSucceeds (.download (.ytConstructError "network unreachable")) = false := rfl
  have h2 : (StageRun.download (.ytConstructError "network unreachable") ≠ .download .ytNoStream) := by
    intro h
    injection h with h'
    exact DownloadScenario.noConfusion h'
  exact ⟨h1, h2, failing_stage_emits_zero_error _ h1 h2⟩

/-- C6 counterexample: the no-suitable-stream failure of `download_video`
returns `None` after emitting only the 10-percent start event - no percent-0
error event is ever emitted - so the claim is false as stated. -/
theorem download_no_stream_silent :
    stageSucceeds (.download .ytNoStream) = false ∧
    terminalZeroError (stageEvents (.download .ytNoStream)) = false := by
  refine ⟨rfl, ?_⟩
  have hev : stageEvents (.download .ytNoStream) = [((10:ℚ), "Starting download...")] := rfl
  rw [hev, terminalZeroError]
  have hlast : [((10:ℚ), "Starting download...")].getLast? = some ((10:ℚ), "Starting download...") := rfl
  rw [hlast]
  have h10 : isZeroPercent ((10:ℚ), "Starting download...") = false := by
    simp [isZeroPercent]
  simp [h10]

lemma cropRegion_1920_1080 :
    cropRegion 1920 1080 = some ⟨1313/2, 0, 2527/2, 1080⟩ := by
  have h607 : pyInt (((1080:ℤ):ℚ) * target_aspect_ratio) = 607 := by
    apply pyInt_eq_of <;> rw [target_aspect_ratio] <;> norm_num
  simp only [cropRegion]
  rw [if_pos, if_pos]
  · rw [h607]
    simp only [Option.some.injEq, CropRect.mk.injEq]
    norm_num
  · rw [target_aspect_ratio]
    norm_num
  · rw [target_aspect_ratio, abs_of_nonneg (by norm_num)]
    norm_num

/-- C2 (confirmed): whenever the aspect-ratio branch of
`convert_to_shorts_format` decides to crop, the computed crop rectangle is a
valid sub-rectangle of the source frame: both origin coordinates are
nonnegative and both far coordinates are bounded by the source dimensions, so
no negative coordinate reaches the encoder. -/
theorem crop_bounds_valid (w h : ℤ) (r : CropRect) (hw : 0 < w) (hh : 0 < h)
    (hr : cropRegion w h = some r) :
    0 ≤ r.x1 ∧ r.x1 ≤ r.x2 ∧ r.x2 ≤ (w:ℚ) ∧ 0 ≤ r.y1 ∧ r.y1 ≤ r.y2 ∧ r.y2 ≤ (h:ℚ) := by
  have hwq : (0:ℚ) < (w:ℚ) := by exact_mod_cast hw
  have hhq : (0:ℚ) < (h:ℚ) := by exact_mod_cast hh
  simp only [cropRegion] at hr
  split_ifs at hr with htol hwide
  · -- too-wide branch
    rw [Option.some_inj] at hr
    subst hr
    have harg : (0:ℚ) ≤ (h:ℚ) * target_aspect_ratio := by
      rw [target_aspect_ratio]
      positivity
    have h1 : (pyInt ((h:ℚ) * target_aspect_ratio) : ℚ) ≤ (h:ℚ) * target_aspect_ratio :=
      pyInt_le_self _ harg
    have h2 : (h:ℚ) * target_aspect_ratio < (w:ℚ) := by
      rw [gt_iff_lt, lt_div_iff₀ hhq] at hwide
      linarith
    have h3 : (pyInt ((h:ℚ) * target_aspect_ratio) : ℚ) < (w:ℚ) := lt_of_le_of_lt h1 h2
    have h0 : (0:ℚ) ≤ (pyInt ((h:ℚ) * target_aspect_ratio) : ℚ) := by
      exact_mod_cast pyInt_nonneg _ harg
    refine ⟨?_, ?_, ?_, ?_, ?_, ?_⟩ <;> dsimp only
    · linarith
    · linarith
    · linarith
    · norm_num
    · linarith
    · linarith
  · -- too-tall branch
    rw [Option.some_inj] at hr
    subst hr
    have hle : (w:ℚ)/(h:ℚ) ≤ target_aspect_ratio := not_lt.mp hwide
    have harg : (0:ℚ) ≤ (w:ℚ) / target_aspect_ratio := by
      rw [target_aspect_ratio]
      positivity
    have h1 : (pyInt ((w:ℚ) / target_aspect_ratio) : ℚ) ≤ (w:ℚ) / target_aspect_ratio :=
      pyInt_le_self _ harg
    have h2 : (w:ℚ) / target_aspect_ratio ≤ (h:ℚ) := by
      rw [div_le_iff₀ (by rw [target_aspect_ratio]; norm_num)]
      rw [div_le_iff₀ hhq] at hle
      linarith
    have h3 : (pyInt ((w:ℚ) / target_aspect_ratio) : ℚ) ≤ (h:ℚ) := le_trans h1 h2
    have h0 : (0:ℚ) ≤ (pyInt ((w:ℚ) / target_aspect_ratio) : ℚ) := by
      exact_mod_cast pyInt_nonneg _ harg
    refine ⟨?_, ?_, ?_, ?_, ?_, ?_⟩ <;> dsimp only
    · norm_num
    · linarith
    · linarith
    · linarith
    · linarith
    · linarith

/-- C2 witness: the 1920x1080 source is cropped to the rectangle
(656.5, 0) - (1263.5, 1080), which lies inside the frame. -/
theorem crop_bounds_valid_witness :
    (0:ℤ) < 1920 ∧ (0:ℤ) < 1080 ∧
    cropRegion 1920 1080 = some ⟨1313/2, 0, 2527/2, 1080⟩ ∧
    (0 ≤ (⟨1313/2, 0, 2527/2, 1080⟩ : CropRect).x1 ∧
     (⟨1313/2, 0, 2527/2, 1080⟩ : CropRect).x1 ≤ (⟨1313/2, 0, 2527/2, 1080⟩ : CropRect).x2 ∧
     (⟨1313/2, 0, 2527/2, 1080⟩ : CropRect).x2 ≤ ((1920:ℤ):ℚ) ∧
     0 ≤ (⟨1313/2, 0, 2527/2, 1080⟩ : CropRect).y1 ∧
     (⟨1313/2, 0, 2527/2, 1080⟩ : CropRect).y1 ≤ (⟨1313/2, 0, 2527/2, 1080⟩ : CropRect).y2 ∧
     (⟨1313/2, 0, 2527/2, 1080⟩ : CropRect).y2 ≤ ((1080:ℤ):ℚ)) :=
  ⟨by norm_num, by norm_num, cropRegion_1920_1080,
   crop_bounds_valid 1920 1080 _ (by norm_num) (by norm_num) cropRegion_1920_1080⟩

/-- C1 (amended): in the too-wide branch, `convert_to_shorts_format` computes
the cropped width as Python `int(height * target_aspect_ratio)` - truncation,
not `round` - retains the full height, crops symmetrically about the
horizontal centre, and truncates the duration to `min 60 duration`; for the
1920x1080, 90-second scenario this gives duration 60 and width
`int(1080 * 9/16) = 607`, not `round(1080 * 9/16) = 608`. -/
theorem convert_wide_crop (w h : ℤ) (d : ℚ) (src : String)
    (htol : |(w:ℚ)/(h:ℚ) - target_aspect_ratio| > 1/10)
    (hwide : (w:ℚ)/(h:ℚ) > target_aspect_ratio) :
    (convert_to_shorts_format (.success w h d src)).outDuration = some (min 60 d) ∧
    ∃ r : CropRect, (convert_to_shorts_format (.success w h d src)).crop = some r ∧
      r.x2 - r.x1 = (pyInt ((h:ℚ) * target_aspect_ratio) : ℚ) ∧
      r.y1 = 0 ∧ r.y2 = (h:ℚ) ∧ r.x1 + r.x2 = (w:ℚ) := by
  constructor
  · show some (outputDuration d) = some (min 60 d)
    rw [outputDuration]
    split_ifs with h60
    · rw [min_eq_left (le_of_lt h60)]
    · rw [min_eq_right (not_lt.mp h60)]
  · refine ⟨⟨(w:ℚ)/2 - (pyInt ((h:ℚ) * target_aspect_ratio) : ℚ)/2, 0,
            (w:ℚ)/2 + (pyInt ((h:ℚ) * target_aspect_ratio) : ℚ)/2, (h:ℚ)⟩,
      ?_, ?_, ?_, ?_, ?_⟩
    · show cropRegion w h = _
      simp only [cropRegion]
      rw [if_pos htol, if_pos hwide]
    · dsimp only
      ring
    · rfl
    · rfl
    · dsimp only
      ring

/-- C1 witness: the 1920x1080, 90-second source satisfies the branch
hypotheses; the output has duration `min 60 90 = 60`, full height 1080, a
horizontally centred crop, and width `int(1080 * 9/16) = 607`. -/
theorem convert_wide_crop_witness :
    (|((1920:ℤ):ℚ)/((1080:ℤ):ℚ) - target_aspect_ratio| > 1/10) ∧
    (((1920:ℤ):ℚ)/((1080:ℤ):ℚ) > target_aspect_ratio) ∧
    ((convert_to_shorts_format (.success 1920 1080 90 "clip.mp4")).outDuration =
        some (min 60 90) ∧
     ∃ r : CropRect,
       (convert_to_shorts_format (.success 1920 1080 90 "clip.mp4")).crop = some r ∧
       r.x2 - r.x1 = (pyInt (((1080:ℤ):ℚ) * target_aspect_ratio) : ℚ) ∧
       r.y1 = 0 ∧ r.y2 = ((1080:ℤ):ℚ) ∧ r.x1 + r.x2 = ((1920:ℤ):ℚ)) ∧
    pyInt (((1080:ℤ):ℚ) * target_aspect_ratio) = 607 ∧ min (60:ℚ) 90 = 60 := by
  have h2 : |((1920:ℤ):ℚ)/((1080:ℤ):ℚ) - target_aspect_ratio| > 1/10 := by
    rw [target_aspect_ratio, abs_of_nonneg (by norm_num)]
    norm_num
  have h3 : ((1920:ℤ):ℚ)/((1080:ℤ):ℚ) > target_aspect_ratio := by
    rw [target_aspect_ratio]
    norm_num
  refine ⟨h2, h3, convert_wide_crop 1920 1080 90 "clip.mp4" h2 h3, ?_, by norm_num⟩
  apply pyInt_eq_of <;> rw [target_aspect_ratio] <;> norm_num

/-- C1 counterexample: on the 1920x1080 scenario the crop rectangle passed to
the encoder has width 607 = `int(607.5)`, not the claimed
`round(1080 * 9/16) = 608`. -/
theorem convert_width_not_608 :
    ((convert_to_shorts_format (.success 1920 1080 90 "clip.mp4")).crop.map
        (fun r => r.x2 - r.x1)) = some 607 ∧ ((607:ℚ) ≠ 608) := by
  constructor
  · show (cropRegion 1920 1080).map (fun r => r.x2 - r.x1) = some 607
    rw [cropRegion_1920_1080]
    simp only [Option.map_some']
    norm_num
  · norm_num

lemma chunkPercent_eval (p : ℚ) (k : ℤ) (hpk : p * 100 = (k:ℚ)) :
    chunkPercent p = 30 + (k:ℚ) * (7/10) := by
  rw [chunkPercent, hpk, pyInt_intCast]

/-- C4 counterexample: when `write_videofile` raises, the clip was loaded but
`clip.close()` is never reached - the `except` handler returns `None` with the
decoder still open - so "released on every exit path" is false. -/
theorem convert_write_error_leaks_clip :
    (convert_to_shorts_format (.writeError 1920 1080 90 "disk full")).clipLoaded = true ∧
    (convert_to_shorts_format (.writeError 1920 1080 90 "disk full")).clipClosed = false :=
  ⟨rfl, rfl⟩

/-- C4 (amended): `convert_to_shorts_format` closes the loaded clip exactly on
the success path; when an exception occurs after the clip is loaded (the
rendering failing), the `except` handler returns without closing it, and on a
load failure no clip was opened in the first place. -/
theorem convert_closes_clip_iff_success (s : ConvertScenario) :
    (convert_to_shorts_format s).clipClosed = true ↔
      (convert_to_shorts_format s).result.isSome = true := by
  cases s <;> simp [convert_to_shorts_format]

/-- C5 (amended): `upload_video` maps a chunk fraction `p` to
`30 + int(p * 100) * 0.7`, which equals the claimed `30 + p * 70` exactly when
`p * 100` is an integer; for the transport fractions 0, 1/4, 1/2, 3/4, 1 the
full emitted percent sequence is 10, 20, then per chunk the 30 heartbeat
followed by the mapped values 30, 47.5, 65, 82.5, 100, then the final 100. -/
theorem upload_chunk_mapping (p : ℚ) (k : ℤ) (hk : p * 100 = (k:ℚ)) :
    chunkPercent p = 30 + p * 70 ∧
    (upload_video (some demoCreds)
        (.success [some 0, some (1/4), some (1/2), some (3/4), some 1])).events.map Prod.fst =
      [10, 20, 30, 30, 30, 95/2, 30, 65, 30, 165/2, 30, 100, 100] := by
  constructor
  · rw [chunkPercent_eval p k hk, ← hk]
    ring
  · have hc0 : chunkPercent 0 = 30 := by
      rw [chunkPercent_eval 0 0 (by norm_num)]
      norm_num
    have hc25 : chunkPercent (1/4) = 95/2 := by
      rw [chunkPercent_eval (1/4) 25 (by norm_num)]
      norm_num
    have hc50 : chunkPercent (1/2) = 65 := by
      rw [chunkPercent_eval (1/2) 50 (by norm_num)]
      norm_num
    have hc75 : chunkPercent (3/4) = 165/2 := by
      rw [chunkPercent_eval (3/4) 75 (by norm_num)]
      norm_num
    have hc100 : chunkPercent 1 = 100 := by
      rw [chunkPercent_eval 1 100 (by norm_num)]
      norm_num
    simp [upload_video, chunkEvents, heartbeat, hc0, hc25, hc50, hc75, hc100]
    rw [show (4⁻¹ : ℚ) = 1/4 by norm_num, show (2⁻¹ : ℚ) = 1/2 by norm_num]
    exact ⟨hc25, hc50⟩

/-- C5 witness: at `p = 1/4` (so `p * 100 = 25` is an integer) the emitted
value equals `30 + p * 70 = 47.5`, and the scenario percent trace holds. -/
theorem upload_chunk_mapping_witness :
    ((1/4 : ℚ) * 100 = ((25:ℤ):ℚ)) ∧
    (chunkPercent (1/4) = 30 + (1/4) * 70 ∧
     (upload_video (some demoCreds)
        (.success [some 0, some (1/4), some (1/2), some (3/4), some 1])).events.map Prod.fst =
      [10, 20, 30, 30, 30, 95/2, 30, 65, 30, 165/2, 30, 100, 100]) :=
  ⟨by norm_num, upload_chunk_mapping (1/4) 25 (by norm_num)⟩

/-- C5 counterexample: at the in-range fraction `p = 1/200`, the code emits
`30 + int(0.5) * 0.7 = 30`, not the claimed `30 + p * 70 = 30.35`, so the
claimed exact mapping is false for general `p` in `[0, 1]`. -/
theorem upload_chunk_mapping_truncates :
    ((0:ℚ) ≤ 1/200) ∧ ((1/200 : ℚ) ≤ 1) ∧
    chunkPercent (1/200) ≠ 30 + (1/200) * 70 := by
  refine ⟨by norm_num, by norm_num, ?_⟩
  have h : chunkPercent (1/200) = 30 := by
    rw [chunkPercent,
      show ((1/200 : ℚ) * 100) = (1/2 : ℚ) by norm_num,
      pyInt_eq_of (1/2) 0 (by norm_num) (by norm_num) (by norm_num)]
    norm_num
  rw [h]
  norm_num

/-- C7 (confirmed): a publish attempt entering through `/api/upload` with an
empty title is rejected synchronously by the pre-flight check of line 360
(HTTP 400, "Invalid parameters" - the spec's `InvalidMetadata` class): no
background task is dispatched and zero network calls are made, regardless of
the other parameters. -/
theorem empty_title_rejected (videoPath : String) (pathExists : Bool)
    (title : String) (n : ℕ) (ht : title = "") :
    api_upload_video videoPath pathExists title n =
      ⟨false, some "Invalid parameters", false, 0⟩ := by
  subst ht
  simp [api_upload_video]

/-- C7 witness: a concrete request with an existing video path, empty title,
and a task that would make 5 network calls is rejected with none made. -/
theorem empty_title_rejected_witness :
    ("" : String) = "" ∧
    api_upload_video "uploads/clip.mp4" true "" 5 =
      ⟨false, some "Invalid parameters", false, 0⟩ :=
  ⟨rfl, empty_title_rejected "uploads/clip.mp4" true "" 5 rfl⟩

/-- C8 counterexample: two generic fetches at the distinct wall-clock times
100.5s and 100.75s - inside the same integer second - return the very same
destination path, so sub-second collision avoidance is false as claimed. -/
theorem generic_fetch_same_second_collision :
    ((201/2 : ℚ) ≠ (403/4 : ℚ)) ∧
    (download_video (.genericSuccess (201/2))).2 =
      (download_video (.genericSuccess (403/4))).2 := by
  constructor
  · norm_num
  · show some (genericVideoName (201/2)) = some (genericVideoName (403/4))
    have h1 : pyInt (201/2 : ℚ) = 100 :=
      pyInt_eq_of _ _ (by norm_num) (by norm_num) (by norm_num)
    have h2 : pyInt (403/4 : ℚ) = 100 :=
      pyInt_eq_of _ _ (by norm_num) (by norm_num) (by norm_num)
    rw [genericVideoName, genericVideoName, h1, h2]

/-- C8 (amended): the generic-strategy destination path is a function of the
integer wall-clock second `int(time.time())` alone, so any two generic fetches
whose times fall in the same integer second produce the SAME path (the later
write overwrites the earlier asset); distinct generated names can arise only
from distinct integer seconds. -/
theorem generic_fetch_name_second_granularity (t1 t2 : ℚ) (h : pyInt t1 = pyInt t2) :
    (download_video (.genericSuccess t1)).2 = (download_video (.genericSuccess t2)).2 := by
  show some (genericVideoName t1) = some (genericVideoName t2)
  rw [genericVideoName, genericVideoName, h]

/-- C8 witness: the times 100.5s and 100.75s share the integer second 100 and
receive the same path. -/
theorem generic_fetch_name_second_granularity_witness :
    pyInt (201/2 : ℚ) = pyInt (403/4 : ℚ) ∧
    (download_video (.genericSuccess (201/2))).2 =
      (download_video (.genericSuccess (403/4))).2 := by
  have h1 : pyInt (201/2 : ℚ) = 100 :=
    pyInt_eq_of _ _ (by norm_num) (by norm_num) (by norm_num)
  have h2 : pyInt (403/4 : ℚ) = 100 :=
    pyInt_eq_of _ _ (by norm_num) (by norm_num) (by norm_num)
  have h12 : pyInt (201/2 : ℚ) = pyInt (403/4 : ℚ) := by rw [h1, h2]
  exact ⟨h12, generic_fetch_name_second_granularity _ _ h12⟩

/-- C9 (confirmed): with a valid credential object persisted in
`token.pickle`, `authenticate_youtube` short-circuits: it returns
`(True, "Authentication successful")`, never runs the interactive consent
flow, builds the service from the stored credentials, and leaves the token
file unchanged - so a second call returns the identical result. -/
theorem authenticate_valid_token_idempotent (c : Creds) (hv : c.valid = true)
    (pe1 pe2 : String) (rf1 fl1 rf2 fl2 : Creds) :
    authenticate_youtube true pe1 rf1 fl1 (some c) =
      ⟨true, "Authentication successful", false, some c, some c⟩ ∧
    authenticate_youtube true pe2 rf2 fl2
        (authenticate_youtube true pe1 rf1 fl1 (some c)).newToken =
      authenticate_youtube true pe1 rf1 fl1 (some c) := by
  have h1 : authenticate_youtube true pe1 rf1 fl1 (some c) =
      ⟨true, "Authentication successful", false, some c, some c⟩ := by
    simp [authenticate_youtube, hv]
  refine ⟨h1, ?_⟩
  rw [h1]
  simp [authenticate_youtube, hv]

/-- C9 witness: the concrete valid credential object short-circuits both
calls, with arbitrary distinct refresh/flow results on each call. -/
theorem authenticate_valid_token_idempotent_witness :
    demoCreds.valid = true ∧
    (authenticate_youtube true "e1" ⟨false, true, true, 1⟩ ⟨true, false, false, 2⟩
        (some demoCreds) =
      ⟨true, "Authentication successful", false, some demoCreds, some demoCreds⟩ ∧
     authenticate_youtube true "e2" ⟨false, true, true, 3⟩ ⟨true, false, false, 4⟩
        (authenticate_youtube true "e1" ⟨false, true, true, 1⟩ ⟨true, false, false, 2⟩
          (some demoCreds)).newToken =
      authenticate_youtube true "e1" ⟨false, true, true, 1⟩ ⟨true, false, false, 2⟩
        (some demoCreds)) :=
  ⟨rfl, authenticate_valid_token_idempotent demoCreds rfl "e1" "e2"
    ⟨false, true, true, 1⟩ ⟨true, false, false, 2⟩ ⟨false, true, true, 3⟩ ⟨true, false, false, 4⟩⟩

/-- C10 (confirmed): calling `upload_video` while `self.youtube_service` is
still `None` (no successful `authenticate_youtube` yet) raises an
`AttributeError` at line 244 that the stage's own `except` handler catches:
for every transport the call returns `(False, "Upload failed: ...")` with a
non-empty message, emitting the terminal 0-percent error event, instead of
letting the exception escape. -/
theorem upload_before_auth_returns_failure (tr : UploadTransport) :
    (upload_video none tr).ok = false ∧
    (upload_video none tr).message = "Upload failed: " ++ noServiceError ∧
    (upload_video none tr).message ≠ "" ∧
    (upload_video none tr).events =
      [(10, "Starting upload..."), (20, "Initiating upload..."),
       (0, "Error: " ++ noServiceError)] := by
  refine ⟨rfl, rfl, ?_, rfl⟩
  show "Upload failed: " ++ noServiceError ≠ ""
  exact append_ne_empty _ _ (by decide)
